import Mathlib

/-!
Shallow embedding of `src/app/mav_client.py` (the `MavClient` class and its
helper functions) from the surftrak_fixit repository.

Modelling conventions:
* JSON values (what `json.loads` produces and what message templates are)
  are the inductive type `JsonVal`; Python `dict`s are association lists
  with overwrite-on-insert semantics (`dinsert`).
* Wall-clock time (`time.time()`) is a rational number passed explicitly to
  every operation that reads the clock.
* The remote mavlink2rest endpoint is an oracle `fetch : String → Option
  JsonVal` passed to every operation that may fetch a template
  (`get_json('/helper/mavlink?name=...')`); `none` models a failed fetch.
* Outbound posts (`send_msg`) are recorded as a list of `(info, msg)` pairs.
* Python statements that can raise (`d[k]` on a missing key, item assignment
  on a non-dict) are modelled with `Except`; the error branch carries the
  partially mutated state, exactly as the Python object would retain it.
-/

/-- A JSON value, as produced by `json.loads` and used for MAVLink message
templates and frames. -/
inductive JsonVal where
  | null : JsonVal
  | bool (b : Bool) : JsonVal
  | num (q : ℚ) : JsonVal
  | str (s : String) : JsonVal
  | arr (xs : List JsonVal) : JsonVal
  | obj (fields : List (String × JsonVal)) : JsonVal

/-- Python `j == q` for an int/float literal `q`: true exactly when `j` is
that number. -/
def jeqNum (j : JsonVal) (q : ℚ) : Bool :=
  match j with
  | .num x => x == q
  | _ => false

/-- Python `j == s` for a string literal `s`: true exactly when `j` is that
string. -/
def jeqStr (j : JsonVal) (s : String) : Bool :=
  match j with
  | .str x => x == s
  | _ => false

/-- Python dict lookup `d.get(k)` / `k in d` over an association list. -/
def dlookup {α : Type} : List (String × α) → String → Option α
  | [], _ => none
  | (k, v) :: rest, key => if k = key then some v else dlookup rest key

/-- Python dict assignment `d[k] = v`: overwrite the existing binding if
present, otherwise append a new one. -/
def dinsert {α : Type} (l : List (String × α)) (key : String) (v : α) :
    List (String × α) :=
  if (dlookup l key).isSome then
    l.map (fun p => if p.1 = key then (key, v) else p)
  else
    l ++ [(key, v)]

/-- Python `d[k]` on a JSON value: `KeyError` on a missing key, `TypeError`
when the value is not a dict; both modelled as `.error ()`. -/
def jget (j : JsonVal) (key : String) : Except Unit JsonVal :=
  match j with
  | .obj fields =>
    match dlookup fields key with
    | some v => .ok v
    | none => .error ()
  | _ => .error ()

/-- Python `msg['message'][k] = v` on a template: fails when `msg` is not a
dict, has no `'message'` key, or `msg['message']` is not a dict. -/
def setMsgField (msg : JsonVal) (key : String) (v : JsonVal) :
    Except Unit JsonVal :=
  match msg with
  | .obj fields =>
    match dlookup fields "message" with
    | some (.obj mfields) =>
      .ok (.obj (dinsert fields "message" (.obj (dinsert mfields key v))))
    | some _ => .error ()
    | none => .error ()
  | _ => .error ()

/-- A sequence of `msg['message'][k] = v` assignments, in order. -/
def withMsgFields (msg : JsonVal) : List (String × JsonVal) →
    Except Unit JsonVal
  | [] => .ok msg
  | (k, v) :: rest =>
    match setMsgField msg k v with
    | .ok m => withMsgFields m rest
    | .error e => .error e

/-- A template on which every `msg['message'][k] = v` assignment succeeds:
a JSON object whose `'message'` field is a JSON object. -/
def isGoodTemplate (msg : JsonVal) : Bool :=
  match msg with
  | .obj fields =>
    match dlookup fields "message" with
    | some (.obj _) => true
    | _ => false
  | _ => false

/-- `chars_to_str` (mav_client.py:25): replace each `'\x00'` element by the
empty string and join. Python iterates over a list of one-character
strings, so the input is `List String`. -/
def chars_to_str (param_id_chars : List String) : String :=
  String.join (param_id_chars.map (fun x => if x = "\x00" then "" else x))

/-- `str_to_chars` (mav_client.py:33): split a string into one-character
strings and pad with `'\x00'` up to `pad_len`; a string already of length
`≥ pad_len` is returned unchanged (no truncation). -/
def str_to_chars (param_id : String) (pad_len : ℕ) : List String :=
  let result := param_id.data.map (fun c => String.mk [c])
  if result.length < pad_len then
    result ++ List.replicate (pad_len - result.length) "\x00"
  else
    result

/-- An outbound POST to mavlink2rest: the `info` label and the message body
passed to `send_msg` (mav_client.py:129). -/
structure Send where
  info : String
  msg : JsonVal

/-- The mutable state of a `MavClient` instance (mav_client.py:55-82).
Fields keep the Python attribute names without the leading underscore. -/
structure MavClient where
  target_system : ℚ
  target_component : ℚ
  websocket_is_open : Bool
  receiving_heartbeats : Bool
  last_heartbeat_time : Option ℚ
  msg_frequencies : List (ℚ × ℚ)
  msg_callback : Bool
  parameters : List (String × JsonVal)
  param_request_burst_start : ℚ
  param_request_burst_count : ℕ
  named_floats : List (String × JsonVal)
  template_cache : List (String × JsonVal)

/-- `MavClient._reset` (mav_client.py:84): clear the parameter, named-float
and template caches and mark heartbeat-not-received. -/
def MavClient.reset (c : MavClient) : MavClient :=
  { c with
    parameters := []
    named_floats := []
    template_cache := []
    receiving_heartbeats := false
    last_heartbeat_time := none }

/-- The guard of mav_client.py:266:
`self._last_heartbeat_time is not None and now - self._last_heartbeat_time > 2.0`. -/
def heartbeatStale (now : ℚ) (c : MavClient) : Bool :=
  match c.last_heartbeat_time with
  | some t => decide (now - t > 2)
  | none => false

/-- `MavClient.ok` (mav_client.py:264): if the heartbeat is stale, perform
the full `_reset`; return `websocket_is_open and receiving_heartbeats`
together with the (possibly reset) state. -/
def MavClient.ok (now : ℚ) (c : MavClient) : Bool × MavClient :=
  let c1 := if heartbeatStale now c then c.reset else c
  (c1.websocket_is_open && c1.receiving_heartbeats, c1)

/-- `MavClient.get_template` (mav_client.py:144): on a cache miss fetch the
template from mavlink2rest (returning `none` on fetch failure, caching
nothing); return a deep copy of the cached template. At the value level a
deep copy is the value itself; aliasing is modelled separately by
`TemplateHeap.get_template`. -/
def MavClient.get_template (fetch : String → Option JsonVal)
    (msg_name : String) (c : MavClient) : Option JsonVal × MavClient :=
  match dlookup c.template_cache msg_name with
  | some t => (some t, c)
  | none =>
    match fetch msg_name with
    | none => (none, c)
    | some t =>
      (some t, { c with template_cache := dinsert c.template_cache msg_name t })

/-- The loop body of `MavClient._request_msg_frequencies`
(mav_client.py:169-173): for each registered `(msg_id, frequency)` set
`param1`/`param2` on the (shared, repeatedly mutated) message and send it.
`int(1000000 / frequency)` truncates toward zero, which is `⌊·⌋` for the
positive frequencies the guard admits. An `.error` result carries the sends
already made before the Python `KeyError`/`TypeError`. -/
def freqLoop (msg : JsonVal) : List (ℚ × ℚ) → List Send →
    Except (List Send) (List Send)
  | [], acc => .ok acc
  | (msg_id, frequency) :: rest, acc =>
    match setMsgField msg "param1" (.num msg_id) with
    | .error _ => .error acc
    | .ok m1 =>
      match setMsgField m1 "param2"
          (.num (if frequency > 0 then ((⌊(1000000 : ℚ) / frequency⌋ : ℤ) : ℚ) else -1)) with
      | .error _ => .error acc
      | .ok m2 =>
        freqLoop m2 rest
          (acc ++ [⟨"COMMAND_LONG:MAV_CMD_SET_MESSAGE_INTERVAL:" ++ toString msg_id, m2⟩])

/-- `MavClient._request_msg_frequencies` (mav_client.py:159): build a
COMMAND_LONG from its template and send one MAV_CMD_SET_MESSAGE_INTERVAL
per registered frequency. The `Bool` is true when a Python exception
escaped (malformed template). -/
def MavClient.request_msg_frequencies (fetch : String → Option JsonVal)
    (c : MavClient) : MavClient × List Send × Bool :=
  match c.get_template fetch "COMMAND_LONG" with
  | (none, c1) => (c1, [], false)
  | (some msg, c1) =>
    match withMsgFields msg
        [("target_system", .num c.target_system),
         ("target_component", .num c.target_component),
         ("command", .obj [("type", .str "MAV_CMD_SET_MESSAGE_INTERVAL")])] with
    | .error _ => (c1, [], true)
    | .ok m =>
      match freqLoop m c.msg_frequencies [] with
      | .ok sends => (c1, sends, false)
      | .error sends => (c1, sends, true)

/-- `MavClient._request_data_stream` (mav_client.py:175): build a
REQUEST_DATA_STREAM from its template (`start_stop = 1`) and send it. The
`.error` branch is a Python exception from a malformed template. -/
def MavClient.request_data_stream (fetch : String → Option JsonVal)
    (stream_id : ℚ) (frequency : ℚ) (c : MavClient) :
    Except (MavClient × List Send) (MavClient × List Send) :=
  match c.get_template fetch "REQUEST_DATA_STREAM" with
  | (none, c1) => .ok (c1, [])
  | (some msg, c1) =>
    match withMsgFields msg
        [("target_system", .num c.target_system),
         ("target_component", .num c.target_component),
         ("req_stream_id", .num stream_id),
         ("req_message_rate", .num frequency),
         ("start_stop", .num 1)] with
    | .error _ => .error (c1, [])
    | .ok m => .ok (c1, [⟨"REQUEST_DATA_STREAM:" ++ toString stream_id, m⟩])

/-- `apm2.MAV_DATA_STREAM_EXTENDED_STATUS` (apm2.py). -/
def MAV_DATA_STREAM_EXTENDED_STATUS : ℚ := 2

/-- `MavClient._request_param` (mav_client.py:188): fetch the
PARAM_REQUEST_READ template (silently give up if unavailable); reset the
burst window if more than 0.3 s have elapsed since its start; drop the
request silently if the burst count has reached 10; otherwise send a
by-name read request (`param_index = -1`) and increment the count. -/
def MavClient.request_param (fetch : String → Option JsonVal) (now : ℚ)
    (param_id : String) (c : MavClient) :
    Except (MavClient × List Send) (MavClient × List Send) :=
  match c.get_template fetch "PARAM_REQUEST_READ" with
  | (none, c1) => .ok (c1, [])
  | (some msg, c1) =>
    let c2 :=
      if now - c1.param_request_burst_start > 3 / 10 then
        { c1 with param_request_burst_start := now, param_request_burst_count := 0 }
      else c1
    if c2.param_request_burst_count ≥ 10 then
      .ok (c2, [])
    else
      match withMsgFields msg
          [("target_system", .num c.target_system),
           ("target_component", .num c.target_component),
           ("param_index", .num (-1)),
           ("param_id", .arr ((str_to_chars param_id 16).map .str))] with
      | .error _ => .error (c2, [])
      | .ok m =>
        .ok ({ c2 with param_request_burst_count := c2.param_request_burst_count + 1 },
             [⟨"PARAM_REQUEST_READ:" ++ param_id, m⟩])

/-- Iterating `chars_to_str`'s argument in Python: a JSON array of strings
yields its elements; a JSON string yields its one-character substrings;
iterating any other value (or joining non-string items) raises `TypeError`. -/
def jstrItems : JsonVal → Except Unit (List String)
  | .arr xs => strItemsAux xs
  | .str s => .ok (s.data.map (fun ch => String.mk [ch]))
  | _ => .error ()
where strItemsAux : List JsonVal → Except Unit (List String)
  | [] => .ok []
  | .str s :: rest =>
    match strItemsAux rest with
    | .ok l => .ok (s :: l)
    | .error e => .error e
  | _ :: _ => .error ()

/-- The field reads at mav_client.py:225-227: `mav_msg['header']['system_id']`,
`mav_msg['header']['component_id']`, `mav_msg['message']['type']`. Any
missing key or non-dict raises (`.error`). Also returns the `'message'`
object for the branch bodies. -/
def frameIds (mav_msg : JsonVal) : Except Unit (JsonVal × JsonVal × JsonVal × JsonVal) :=
  match jget mav_msg "header" with
  | .error e => .error e
  | .ok hdr =>
    match jget hdr "system_id" with
    | .error e => .error e
    | .ok sys_id =>
      match jget hdr "component_id" with
      | .error e => .error e
      | .ok comp_id =>
        match jget mav_msg "message" with
        | .error e => .error e
        | .ok m =>
          match jget m "type" with
          | .error e => .error e
          | .ok msg_name => .ok (sys_id, comp_id, m, msg_name)

/-- Result of handling one websocket TEXT frame. `exn` means a Python
exception escaped `_add_ws_text_msg`; it carries the state as mutated up to
the raising statement, and the callback is not invoked. -/
inductive HandlerOutcome where
  | ok (c : MavClient) (sends : List Send) (observed : List JsonVal)
  | exn (c : MavClient) (sends : List Send)

/-- `MavClient._add_ws_text_msg` (mav_client.py:215): a frame that fails
`json.loads` (`parsed = none`) is logged and dropped with no effect; a
parsed frame has its header/type read (raising on missing fields), updates
the matching cache for HEARTBEAT / PARAM_VALUE / NAMED_VALUE_FLOAT frames
from the target identity, and is finally passed to the callback when one is
registered (`observed`). The external callback itself is modelled as never
raising. -/
def MavClient.add_ws_text_msg (fetch : String → Option JsonVal) (now : ℚ)
    (parsed : Option JsonVal) (c : MavClient) : HandlerOutcome :=
  match parsed with
  | none => .ok c [] []
  | some mav_msg =>
    match frameIds mav_msg with
    | .error _ => .exn c []
    | .ok (sys_id, comp_id, m, msg_name) =>
      let observed : List JsonVal := if c.msg_callback then [mav_msg] else []
      if jeqNum sys_id c.target_system && jeqNum comp_id c.target_component then
        if jeqStr msg_name "HEARTBEAT" then
          let c1 := { c with last_heartbeat_time := some now }
          if c1.receiving_heartbeats then
            .ok c1 [] observed
          else
            match MavClient.request_msg_frequencies fetch
                { c1 with receiving_heartbeats := true } with
            | (c2, sends, true) => .exn c2 sends
            | (c2, sends, false) => .ok c2 sends observed
        else if jeqStr msg_name "PARAM_VALUE" then
          match jget m "param_value" with
          | .error _ => .exn c []
          | .ok v =>
            match jget m "param_id" with
            | .error _ => .exn c []
            | .ok pid =>
              match jstrItems pid with
              | .error _ => .exn c []
              | .ok items =>
                .ok { c with parameters := dinsert c.parameters (chars_to_str items) v }
                  [] observed
        else if jeqStr msg_name "NAMED_VALUE_FLOAT" then
          match jget m "value" with
          | .error _ => .exn c []
          | .ok v =>
            match jget m "name" with
            | .error _ => .exn c []
            | .ok nm =>
              match jstrItems nm with
              | .error _ => .exn c []
              | .ok items =>
                .ok { c with named_floats := dinsert c.named_floats (chars_to_str items) v }
                  [] observed
        else
          .ok c [] observed
      else
        .ok c [] observed

/-- One message from `ws.receive()` in `_ws_dispatch` (mav_client.py:246):
TEXT (with its `json.loads` result), ERROR, CLOSED, or any other type. -/
inductive WSMsg where
  | text (parsed : Option JsonVal)
  | wserror
  | closed
  | other

/-- How one pass of `_ws_dispatch`'s receive loop ended. -/
inductive DispatchEnd where
  | closedByRemote
  | channelError
  | exnEscaped

/-- Result of running `_ws_dispatch` on a finite prefix of the websocket
stream: either the inputs ran out with the loop still live, or the loop
ended (break on ERROR/CLOSED, or an exception escaped). -/
inductive DispatchResult where
  | pending (c : MavClient) (sends : List Send) (observed : List JsonVal)
  | ended (c : MavClient) (sends : List Send) (observed : List JsonVal) (e : DispatchEnd)

/-- `MavClient._ws_dispatch` (mav_client.py:246) over a finite list of
received messages, each tagged with its arrival time: TEXT messages go to
`_add_ws_text_msg` (an exception there escapes the loop), ERROR and CLOSED
break, other types are logged and ignored. -/
def MavClient.ws_dispatch (fetch : String → Option JsonVal) :
    List (ℚ × WSMsg) → MavClient → List Send → List JsonVal → DispatchResult
  | [], c, sends, observed => .pending c sends observed
  | (now, .text parsed) :: rest, c, sends, observed =>
    match c.add_ws_text_msg fetch now parsed with
    | .ok c1 s o => MavClient.ws_dispatch fetch rest c1 (sends ++ s) (observed ++ o)
    | .exn c1 s => .ended c1 (sends ++ s) observed .exnEscaped
  | (_, .wserror) :: _, c, sends, observed => .ended c sends observed .channelError
  | (_, .closed) :: _, c, sends, observed => .ended c sends observed .closedByRemote
  | (_, .other) :: rest, c, sends, observed =>
    MavClient.ws_dispatch fetch rest c sends observed

/-- The epilogue of one connection cycle in `MavClient.open_websocket`
(mav_client.py:279-288): when `_ws_dispatch` returns normally (it broke out
on ERROR or CLOSED) the client runs `_reset()` and then clears
`websocket_is_open`; when an exception escaped `_ws_dispatch`, control
jumps to the `except` clause, which only clears `websocket_is_open` —
`_reset()` is skipped. -/
def MavClient.connection_teardown (e : DispatchEnd) (c : MavClient) : MavClient :=
  match e with
  | .exnEscaped => { c with websocket_is_open := false }
  | _ => { c.reset with websocket_is_open := false }

/-- `MavClient.get_param` (mav_client.py:302): query `ok()` (which may
reset state), return the cached value on a hit, issue a throttled
`_request_param` on a miss, return `none` when Down or on a miss. -/
def MavClient.get_param (fetch : String → Option JsonVal) (now : ℚ)
    (param_id : String) (c : MavClient) :
    Except (MavClient × List Send) (Option JsonVal × MavClient × List Send) :=
  let okc := c.ok now
  if okc.1 then
    match dlookup okc.2.parameters param_id with
    | some v => .ok (some v, okc.2, [])
    | none =>
      match okc.2.request_param fetch now param_id with
      | .ok (c2, sends) => .ok (none, c2, sends)
      | .error (c2, sends) => .error (c2, sends)
  else
    .ok (none, okc.2, [])

/-- `MavClient.set_param` (mav_client.py:313): when Up, build a PARAM_SET
message from its template (name padded to 16) and send it; no-op when Down
or when the template is unavailable. -/
def MavClient.set_param (fetch : String → Option JsonVal) (now : ℚ)
    (param_id : String) (param_value : JsonVal) (c : MavClient) :
    Except (MavClient × List Send) (MavClient × List Send) :=
  let okc := c.ok now
  if okc.1 then
    match okc.2.get_template fetch "PARAM_SET" with
    | (none, c2) => .ok (c2, [])
    | (some msg, c2) =>
      match withMsgFields msg
          [("target_system", .num c2.target_system),
           ("target_component", .num c2.target_component),
           ("param_id", .arr ((str_to_chars param_id 16).map .str)),
           ("param_value", param_value),
           ("param_type", .obj [("type", .str "MAV_PARAM_TYPE_REAL32")])] with
      | .error _ => .error (c2, [])
      | .ok m => .ok (c2, [⟨"PARAM_SET:" ++ param_id, m⟩])
  else
    .ok (okc.2, [])

/-- `MavClient.get_named_float` (mav_client.py:328): when Up, return the
cached value on a hit; on a miss send a REQUEST_DATA_STREAM for stream
`MAV_DATA_STREAM_EXTENDED_STATUS` at the default 4 Hz and return `none`. -/
def MavClient.get_named_float (fetch : String → Option JsonVal) (now : ℚ)
    (name : String) (c : MavClient) :
    Except (MavClient × List Send) (Option JsonVal × MavClient × List Send) :=
  let okc := c.ok now
  if okc.1 then
    match dlookup okc.2.named_floats name with
    | some v => .ok (some v, okc.2, [])
    | none =>
      match okc.2.request_data_stream fetch MAV_DATA_STREAM_EXTENDED_STATUS 4 with
      | .ok (c2, sends) => .ok (none, c2, sends)
      | .error (c2, sends) => .error (c2, sends)
  else
    .ok (none, okc.2, [])

/-- Run a sequence of `get_param` calls, each at its own time, collecting
all outbound sends (the driver for the burst-throttling property). -/
def runGetParams (fetch : String → Option JsonVal) :
    List (ℚ × String) → MavClient →
    Except (MavClient × List Send) (MavClient × List Send)
  | [], c => .ok (c, [])
  | (t, n) :: rest, c =>
    match c.get_param fetch t n with
    | .ok (_, c1, s) =>
      match runGetParams fetch rest c1 with
      | .ok (c2, s2) => .ok (c2, s ++ s2)
      | .error (c2, s2) => .error (c2, s ++ s2)
    | .error (c1, s) => .error (c1, s)

/-- Object-identity model for `MavClient.get_template`'s aliasing behaviour
(mav_client.py:144-157). Python objects live in a heap addressed by
allocation order; `copy.deepcopy` allocates a wholly fresh object graph,
modelled as a new cell holding the same value. The cache stores the address
of the originally fetched object. -/
structure TemplateHeap where
  heap : List JsonVal
  cache : List (String × ℕ)

/-- Allocate a fresh object: its address is the current heap length. -/
def TemplateHeap.alloc (h : TemplateHeap) (v : JsonVal) : ℕ × TemplateHeap :=
  (h.heap.length, { h with heap := h.heap ++ [v] })

/-- Read the object at an address. -/
def TemplateHeap.read (h : TemplateHeap) (a : ℕ) : Option JsonVal :=
  h.heap[a]?

/-- Mutate the object at an address in place (the caller writing into the
dict returned by `get_template`). -/
def TemplateHeap.write (h : TemplateHeap) (a : ℕ) (v : JsonVal) : TemplateHeap :=
  { h with heap := h.heap.set a v }

/-- `MavClient.get_template` at the object level: on a cache miss, fetch
and store the new template object, then hand the caller the address of a
`copy.deepcopy`; on a hit, hand the caller the address of a fresh deep copy
of the cached object. -/
def TemplateHeap.get_template (fetch : String → Option JsonVal)
    (msg_name : String) (h : TemplateHeap) : Option ℕ × TemplateHeap :=
  match dlookup h.cache msg_name with
  | some cached_addr =>
    match h.read cached_addr with
    | some v =>
      let (a, h1) := h.alloc v
      (some a, h1)
    | none => (none, h)
  | none =>
    match fetch msg_name with
    | none => (none, h)
    | some t =>
      let (cached_addr, h1) := h.alloc t
      let h2 := { h1 with cache := dinsert h1.cache msg_name cached_addr }
      let (a, h3) := h2.alloc t
      (some a, h3)

/-- Well-formed heap: every cached address points into the heap. -/
def TemplateHeap.WF (h : TemplateHeap) : Prop :=
  ∀ n a, dlookup h.cache n = some a → a < h.heap.length

/-- Reading `m['message'][key]` back out of a constructed message. -/
def msgField (m : JsonVal) (key : String) : Except Unit JsonVal :=
  match jget m "message" with
  | .ok mm => jget mm key
  | .error e => .error e

theorem dlookup_append {α : Type} (l1 l2 : List (String × α)) (k : String) :
    dlookup (l1 ++ l2) k =
      match dlookup l1 k with
      | some v => some v
      | none => dlookup l2 k := by
  induction l1 with
  | nil => simp [dlookup]
  | cons p rest ih =>
    by_cases hp : p.1 = k
    · simp [dlookup, hp]
    · simpa [dlookup, hp] using ih

theorem dlookup_map_overwrite {α : Type} (l : List (String × α)) (k : String)
    (v : α) (k2 : String) :
    dlookup (l.map (fun p => if p.1 = k then (k, v) else p)) k2 =
      if k2 = k then (dlookup l k).map (fun _ => v) else dlookup l k2 := by
  induction l with
  | nil => simp [dlookup]
  | cons p rest ih =>
    obtain ⟨a, b⟩ := p
    by_cases ha : a = k
    · have h1 : (if (a, b).1 = k then (k, v) else (a, b)) = (k, v) := if_pos ha
      rw [List.map_cons, h1]
      by_cases h2 : k2 = k
      · simp [dlookup, h2, ha]
      · simp [dlookup, h2, Ne.symm h2, ih, ha,
          show ¬a = k2 from fun h => h2 (ha.symm.trans h).symm]
    · have h1 : (if (a, b).1 = k then (k, v) else (a, b)) = (a, b) := if_neg ha
      rw [List.map_cons, h1]
      by_cases h2 : a = k2
      · simp [dlookup, h2, show ¬k2 = k from fun h => ha (h2.trans h)]
      · simp [dlookup, ha, h2, ih]

theorem dlookup_dinsert_self {α : Type} (l : List (String × α)) (k : String) (v : α) :
    dlookup (dinsert l k v) k = some v := by
  unfold dinsert
  split
  case isTrue h =>
    rw [dlookup_map_overwrite]
    cases hl : dlookup l k with
    | none => rw [hl] at h; simp at h
    | some w => simp
  case isFalse h =>
    have hn : dlookup l k = none := by
      cases hl : dlookup l k with
      | none => rfl
      | some w => rw [hl] at h; simp at h
    rw [dlookup_append, hn]
    simp [dlookup]

theorem dlookup_dinsert_ne {α : Type} (l : List (String × α)) (k k2 : String)
    (v : α) (hne : k2 ≠ k) : dlookup (dinsert l k v) k2 = dlookup l k2 := by
  unfold dinsert
  split
  case isTrue h =>
    rw [dlookup_map_overwrite]
    simp [hne]
  case isFalse h =>
    rw [dlookup_append]
    cases hl : dlookup l k2 with
    | some w => simp
    | none => simp [dlookup, Ne.symm hne]

theorem setMsgField_ok (T : JsonVal) (hT : isGoodTemplate T = true)
    (k : String) (v : JsonVal) :
    ∃ m, setMsgField T k v = .ok m ∧ isGoodTemplate m = true ∧
      msgField m k = .ok v ∧
      ∀ k2, k2 ≠ k → msgField m k2 = msgField T k2 := by
  cases T with
  | obj fs =>
    cases hm : dlookup fs "message" with
    | none => simp [isGoodTemplate, hm] at hT
    | some mv =>
      cases mv with
      | obj ms =>
        refine ⟨.obj (dinsert fs "message" (.obj (dinsert ms k v))), ?_, ?_, ?_, ?_⟩
        · simp [setMsgField, hm]
        · simp [isGoodTemplate, dlookup_dinsert_self]
        · simp [msgField, jget, dlookup_dinsert_self]
        · intro k2 hk2
          simp [msgField, jget, dlookup_dinsert_self, hm, dlookup_dinsert_ne _ _ _ _ hk2]
      | null => simp [isGoodTemplate, hm] at hT
      | bool b => simp [isGoodTemplate, hm] at hT
      | num q => simp [isGoodTemplate, hm] at hT
      | str s => simp [isGoodTemplate, hm] at hT
      | arr xs => simp [isGoodTemplate, hm] at hT
  | null => simp [isGoodTemplate] at hT
  | bool b => simp [isGoodTemplate] at hT
  | num q => simp [isGoodTemplate] at hT
  | str s => simp [isGoodTemplate] at hT
  | arr xs => simp [isGoodTemplate] at hT

theorem withMsgFields_ok (fields : List (String × JsonVal)) :
    ∀ (T : JsonVal), isGoodTemplate T = true →
    ∃ m, withMsgFields T fields = .ok m ∧ isGoodTemplate m = true ∧
      ∀ k, msgField m k =
        (match dlookup fields.reverse k with
         | some v => .ok v
         | none => msgField T k) := by
  induction fields with
  | nil =>
    intro T hT
    exact ⟨T, rfl, hT, fun k => by simp [dlookup]⟩
  | cons p rest ih =>
    intro T hT
    obtain ⟨k0, v0⟩ := p
    obtain ⟨m0, hset, hgood0, hread0, hother0⟩ := setMsgField_ok T hT k0 v0
    obtain ⟨m, hrun, hgood, hreads⟩ := ih m0 hgood0
    refine ⟨m, ?_, hgood, ?_⟩
    · simp [withMsgFields, hset, hrun]
    · intro k
      have hrev : ((k0, v0) :: rest).reverse = rest.reverse ++ [(k0, v0)] := by
        simp
      rw [hrev, dlookup_append]
      cases hl : dlookup rest.reverse k with
      | some v => simpa [hl] using hreads k
      | none =>
        by_cases hk : k0 = k
        · subst hk
          simpa [hl, dlookup, hread0] using hreads k0
        · have := hreads k
          rw [hl] at this
          simp only [dlookup, hk, if_false]
          rw [this, hother0 k (Ne.symm hk)]

theorem get_template_state (c : MavClient) (fetch : String → Option JsonVal)
    (n : String) :
    ((c.get_template fetch n).2).websocket_is_open = c.websocket_is_open ∧
    ((c.get_template fetch n).2).receiving_heartbeats = c.receiving_heartbeats ∧
    ((c.get_template fetch n).2).last_heartbeat_time = c.last_heartbeat_time ∧
    ((c.get_template fetch n).2).parameters = c.parameters ∧
    ((c.get_template fetch n).2).named_floats = c.named_floats ∧
    ((c.get_template fetch n).2).param_request_burst_start = c.param_request_burst_start ∧
    ((c.get_template fetch n).2).param_request_burst_count = c.param_request_burst_count ∧
    ((c.get_template fetch n).2).target_system = c.target_system ∧
    ((c.get_template fetch n).2).target_component = c.target_component := by
  unfold MavClient.get_template
  cases dlookup c.template_cache n with
  | some t => exact ⟨rfl, rfl, rfl, rfl, rfl, rfl, rfl, rfl, rfl⟩
  | none =>
    cases fetch n with
    | none => exact ⟨rfl, rfl, rfl, rfl, rfl, rfl, rfl, rfl, rfl⟩
    | some t => exact ⟨rfl, rfl, rfl, rfl, rfl, rfl, rfl, rfl, rfl⟩

theorem chars_to_str_data (l : List String) :
    (chars_to_str l).data =
      ((l.map (fun x => if x = "\x00" then "" else x)).map String.data).flatten := by
  unfold chars_to_str
  rw [String.join_eq]

theorem mk_singleton_eq_null (ch : Char) :
    String.mk [ch] = "\x00" ↔ ch = '\x00' := by
  constructor
  · intro h
    have h2 := congrArg String.data h
    simpa using h2
  · intro h
    subst h
    rfl

theorem flatten_map_singleton (cs : List Char) :
    (cs.map (fun ch => [ch])).flatten = cs := by
  induction cs with
  | nil => rfl
  | cons a l ih => simp [ih]

theorem chars_to_str_map_sing (cs : List Char)
    (hnull : ∀ ch ∈ cs, ch ≠ '\x00') (kk : ℕ) :
    chars_to_str ((cs.map (fun ch => String.mk [ch])) ++ List.replicate kk "\x00") =
      String.mk cs := by
  apply String.ext
  rw [chars_to_str_data, List.map_append, List.map_append, List.flatten_append]
  have h1 : (cs.map (fun ch => String.mk [ch])).map
      (fun x => if x = "\x00" then "" else x) = cs.map (fun ch => String.mk [ch]) := by
    rw [List.map_map]
    apply List.map_congr_left
    intro ch hch
    simp only [Function.comp]
    rw [if_neg]
    intro h
    exact hnull ch hch ((mk_singleton_eq_null ch).1 h)
  have h2 : (cs.map (fun ch => String.mk [ch])).map String.data =
      cs.map (fun ch => [ch]) := by
    rw [List.map_map]
    rfl
  rw [h1, h2, flatten_map_singleton]
  have h3 : (List.replicate kk "\x00").map
      (fun x => if x = "\x00" then "" else x) = List.replicate kk "" := by
    rw [List.map_replicate, if_pos rfl]
  rw [h3]
  simp [List.map_replicate]

theorem str_to_chars_eq_of_le (s : String) (h : s.length ≤ 16) :
    str_to_chars s 16 =
      s.data.map (fun ch => String.mk [ch]) ++
        List.replicate (16 - s.length) "\x00" := by
  unfold str_to_chars
  simp only [List.length_map]
  have hdl : s.data.length = s.length := rfl
  by_cases hlt : s.data.length < 16
  · rw [if_pos hlt, hdl]
  · rw [if_neg hlt]
    have h16 : s.length = 16 := by omega
    rw [h16]
    simp

/-- C8: for every name string of length 1 to 16 containing no null
characters, encoding it with `str_to_chars` into a 16-element null-padded
sequence and decoding that sequence with `chars_to_str` reproduces the
original string exactly. -/
theorem C8_encode_decode_roundtrip (s : String) (hpos : 1 ≤ s.length)
    (hle : s.length ≤ 16) (hnull : ∀ ch ∈ s.data, ch ≠ '\x00') :
    (str_to_chars s 16).length = 16 ∧ chars_to_str (str_to_chars s 16) = s := by
  rw [str_to_chars_eq_of_le s hle]
  refine ⟨?_, ?_⟩
  · have hdl : s.data.length = s.length := rfl
    simp [List.length_append, List.length_replicate, List.length_map, hdl]
    omega
  · exact (chars_to_str_map_sing s.data hnull (16 - s.length)).trans (String.ext rfl)

/-- Witness for C8 at the concrete parameter name `RNGFND1_TYPE`. -/
theorem C8_encode_decode_roundtrip_witness :
    1 ≤ ("RNGFND1_TYPE" : String).length ∧
    ("RNGFND1_TYPE" : String).length ≤ 16 ∧
    (∀ ch ∈ ("RNGFND1_TYPE" : String).data, ch ≠ '\x00') ∧
    ((str_to_chars "RNGFND1_TYPE" 16).length = 16 ∧
      chars_to_str (str_to_chars "RNGFND1_TYPE" 16) = "RNGFND1_TYPE") :=
  ⟨by decide, by decide, by decide,
    C8_encode_decode_roundtrip "RNGFND1_TYPE" (by decide) (by decide) (by decide)⟩

theorem str_to_chars_of_long (s : String) (hlen : 16 < s.length) :
    str_to_chars s 16 = s.data.map (fun ch => String.mk [ch]) := by
  have hdl : s.data.length = s.length := rfl
  simp only [str_to_chars]
  rw [List.length_map, if_neg (by omega)]

/-- C10: a name longer than the 16-character pad length is neither truncated
nor padded by `str_to_chars` — the result keeps all characters, so it has
more than 16 elements — and `set_param` places this oversized array as the
`param_id` of the outbound PARAM_SET message. -/
theorem C10_oversized_param_id (s : String) (hlen : 16 < s.length) :
    str_to_chars s 16 = s.data.map (fun ch => String.mk [ch]) ∧
    (str_to_chars s 16).length = s.length ∧
    ∀ (c : MavClient) (fetch : String → Option JsonVal) (now hb : ℚ)
      (v T : JsonVal) (cT : MavClient),
      c.websocket_is_open = true → c.receiving_heartbeats = true →
      c.last_heartbeat_time = some hb → now - hb ≤ 2 →
      c.get_template fetch "PARAM_SET" = (some T, cT) →
      isGoodTemplate T = true →
      ∃ m, c.set_param fetch now s v = .ok (cT, [⟨"PARAM_SET:" ++ s, m⟩]) ∧
        msgField m "param_id" = .ok (.arr ((str_to_chars s 16).map .str)) ∧
        16 < ((str_to_chars s 16).map JsonVal.str).length := by
  have hdl : s.data.length = s.length := rfl
  refine ⟨str_to_chars_of_long s hlen, ?_, ?_⟩
  · rw [str_to_chars_of_long s hlen, List.length_map, hdl]
  · intro c fetch now hb v T cT hws hrh hhb hfresh htpl hgood
    have hstale : heartbeatStale now c = false := by
      simp only [heartbeatStale, hhb, decide_eq_false_iff_not]
      linarith
    obtain ⟨m, hrun, hgoodm, hreads⟩ := withMsgFields_ok
      [("target_system", JsonVal.num cT.target_system),
       ("target_component", JsonVal.num cT.target_component),
       ("param_id", JsonVal.arr ((str_to_chars s 16).map JsonVal.str)),
       ("param_value", v),
       ("param_type", JsonVal.obj [("type", JsonVal.str "MAV_PARAM_TYPE_REAL32")])]
      T hgood
    refine ⟨m, ?_, ?_, ?_⟩
    · unfold MavClient.set_param
      simp only [MavClient.ok, hstale, Bool.false_eq_true, if_false, hws, hrh,
        Bool.and_self, if_true, htpl, hrun]
    · have hl : dlookup
          ([("target_system", JsonVal.num cT.target_system),
            ("target_component", JsonVal.num cT.target_component),
            ("param_id", JsonVal.arr ((str_to_chars s 16).map JsonVal.str)),
            ("param_value", v),
            ("param_type", JsonVal.obj [("type", JsonVal.str "MAV_PARAM_TYPE_REAL32")])].reverse)
          "param_id" = some (JsonVal.arr ((str_to_chars s 16).map JsonVal.str)) := rfl
      rw [hreads "param_id", hl]
    · rw [List.length_map, str_to_chars_of_long s hlen, List.length_map, hdl]
      exact hlen

/-- Witness input for C10: a 24-character parameter name. -/
theorem C10_oversized_param_id_witness :
    16 < ("SURFTRAK_PARAMETER_NAME" : String).length ∧
    (str_to_chars "SURFTRAK_PARAMETER_NAME" 16).length =
      ("SURFTRAK_PARAMETER_NAME" : String).length :=
  ⟨by decide, (C10_oversized_param_id "SURFTRAK_PARAMETER_NAME" (by decide)).2.1⟩

/-- A template whose `'message'` field is an object, as mavlink2rest returns. -/
def goodTemplate : JsonVal :=
  .obj [("header", .obj [("system_id", .num 255), ("component_id", .num 0), ("sequence", .num 0)]),
        ("message", .obj [("type", .str "UNSET")])]

/-- A concrete healthy client used as a witness input: open websocket,
receiving heartbeats (last one at t = 0), one cached parameter, one cached
named float, one cached template. -/
def sampleUp : MavClient where
  target_system := 1
  target_component := 1
  websocket_is_open := true
  receiving_heartbeats := true
  last_heartbeat_time := some 0
  msg_frequencies := []
  msg_callback := false
  parameters := [("RNGFND1_TYPE", .num 10)]
  param_request_burst_start := 0
  param_request_burst_count := 0
  named_floats := [("RFTarget", .num (3 / 2))]
  template_cache :=
    [("PARAM_REQUEST_READ", goodTemplate), ("PARAM_SET", goodTemplate),
     ("REQUEST_DATA_STREAM", goodTemplate)]

/-- C1: after a heartbeat gap of more than 2.0 s, the first `ok()` call
returns Down and itself clears the Parameter, NamedFloat and Template
caches and marks heartbeat-not-received; every `get_param` and
`get_named_float` made afterwards returns unknown (`none`) with no
outbound request. -/
theorem C1_stale_heartbeat_down (c : MavClient) (fetch : String → Option JsonVal)
    (now now2 t0 : ℚ) (pname fname : String)
    (hhb : c.last_heartbeat_time = some t0) (hgap : now - t0 > 2) :
    (c.ok now).1 = false ∧
    (c.ok now).2.parameters = [] ∧
    (c.ok now).2.named_floats = [] ∧
    (c.ok now).2.template_cache = [] ∧
    (c.ok now).2.receiving_heartbeats = false ∧
    (c.ok now).2.get_param fetch now2 pname = .ok (none, (c.ok now).2, []) ∧
    (c.ok now).2.get_named_float fetch now2 fname = .ok (none, (c.ok now).2, []) := by
  have hstale : heartbeatStale now c = true := by
    simp only [heartbeatStale, hhb, decide_eq_true_eq]
    linarith
  have hc2 : (c.ok now).2 = c.reset := by
    simp [MavClient.ok, hstale]
  have h1 : (c.ok now).1 = false := by
    simp [MavClient.ok, hstale, MavClient.reset]
  rw [hc2]
  refine ⟨h1, rfl, rfl, rfl, rfl, ?_, ?_⟩
  · unfold MavClient.get_param
    simp [MavClient.ok, heartbeatStale, MavClient.reset]
  · unfold MavClient.get_named_float
    simp [MavClient.ok, heartbeatStale, MavClient.reset]

/-- Witness for C1: `sampleUp`'s last heartbeat was at 0, queried at 3. -/
theorem C1_stale_heartbeat_down_witness :
    sampleUp.last_heartbeat_time = some 0 ∧ (3 : ℚ) - 0 > 2 ∧
    (sampleUp.ok 3).1 = false ∧
    (sampleUp.ok 3).2.get_param (fun _ => none) 3 "RNGFND1_TYPE" =
      .ok (none, (sampleUp.ok 3).2, []) :=
  ⟨rfl, by norm_num,
    (C1_stale_heartbeat_down sampleUp (fun _ => none) 3 3 0 "RNGFND1_TYPE" "RFTarget"
      rfl (by norm_num)).1,
    (C1_stale_heartbeat_down sampleUp (fun _ => none) 3 3 0 "RNGFND1_TYPE" "RFTarget"
      rfl (by norm_num)).2.2.2.2.2.1⟩

/-- C5: while Up, `get_param` returns a cached value with zero outbound
requests; on a miss (template available, throttle count below 10) it sends
exactly one PARAM_REQUEST_READ and returns unknown immediately. -/
theorem C5_get_param_hit_miss (fetch : String → Option JsonVal) (now hb : ℚ)
    (c : MavClient) (name : String)
    (hws : c.websocket_is_open = true) (hrh : c.receiving_heartbeats = true)
    (hhb : c.last_heartbeat_time = some hb) (hfresh : now - hb ≤ 2) :
    (∀ v, dlookup c.parameters name = some v →
      c.get_param fetch now name = .ok (some v, c, [])) ∧
    (dlookup c.parameters name = none →
      ∀ T cT, c.get_template fetch "PARAM_REQUEST_READ" = (some T, cT) →
        isGoodTemplate T = true →
        c.param_request_burst_count < 10 →
        ∃ c2 m, c.get_param fetch now name =
          .ok (none, c2, [⟨"PARAM_REQUEST_READ:" ++ name, m⟩])) := by
  have hstale : heartbeatStale now c = false := by
    simp only [heartbeatStale, hhb, decide_eq_false_iff_not]
    linarith
  have hok : c.ok now = (true, c) := by
    simp [MavClient.ok, hstale, hws, hrh]
  constructor
  · intro v hv
    unfold MavClient.get_param
    rw [hok]
    simp [hv]
  · intro hmiss T cT htpl hgood hcount
    have hcount2 : cT.param_request_burst_count = c.param_request_burst_count := by
      have h := get_template_state c fetch "PARAM_REQUEST_READ"
      rw [htpl] at h
      exact h.2.2.2.2.2.2.1
    obtain ⟨m, hrun, hgoodm, hreads⟩ := withMsgFields_ok
      [("target_system", JsonVal.num c.target_system),
       ("target_component", JsonVal.num c.target_component),
       ("param_index", JsonVal.num (-1)),
       ("param_id", JsonVal.arr ((str_to_chars name 16).map JsonVal.str))] T hgood
    by_cases hwin : now - cT.param_request_burst_start > 3 / 10
    · refine ⟨{ cT with param_request_burst_start := now, param_request_burst_count := 1 }, m, ?_⟩
      unfold MavClient.get_param MavClient.request_param
      rw [hok]
      simp [hmiss, htpl, hwin, hrun]
    · refine ⟨{ cT with param_request_burst_count := cT.param_request_burst_count + 1 }, m, ?_⟩
      unfold MavClient.get_param MavClient.request_param
      rw [hok]
      simp [hmiss, htpl, hwin, hrun, hcount2,
        show ¬c.param_request_burst_count ≥ 10 from by omega]

/-- Witness for C5: a cache hit on `RNGFND1_TYPE` and a miss on `NEW_PARAM`
against `sampleUp`. -/
theorem C5_get_param_hit_miss_witness :
    dlookup sampleUp.parameters "RNGFND1_TYPE" = some (.num 10) ∧
    sampleUp.get_param (fun _ => none) 1 "RNGFND1_TYPE" =
      .ok (some (.num 10), sampleUp, []) ∧
    (∃ c2 m, sampleUp.get_param (fun _ => none) 1 "NEW_PARAM" =
      .ok (none, c2, [⟨"PARAM_REQUEST_READ:" ++ "NEW_PARAM", m⟩])) :=
  ⟨rfl,
    (C5_get_param_hit_miss (fun _ => none) 1 0 sampleUp "RNGFND1_TYPE"
      rfl rfl rfl (by norm_num)).1 (.num 10) rfl,
    (C5_get_param_hit_miss (fun _ => none) 1 0 sampleUp "NEW_PARAM"
      rfl rfl rfl (by norm_num)).2 rfl goodTemplate sampleUp rfl rfl (by decide)⟩

/-- C9: while Up, a `get_named_float` miss returns unknown and, as a side
effect, sends one REQUEST_DATA_STREAM message for stream
`MAV_DATA_STREAM_EXTENDED_STATUS = 2` at 4 Hz with `start_stop = 1`
whenever that template is available — a miss is not side-effect-free. -/
theorem C9_named_float_miss_requests_stream (fetch : String → Option JsonVal)
    (now hb : ℚ) (c : MavClient) (name : String)
    (hws : c.websocket_is_open = true) (hrh : c.receiving_heartbeats = true)
    (hhb : c.last_heartbeat_time = some hb) (hfresh : now - hb ≤ 2)
    (hmiss : dlookup c.named_floats name = none)
    (T : JsonVal) (cT : MavClient)
    (htpl : c.get_template fetch "REQUEST_DATA_STREAM" = (some T, cT))
    (hgood : isGoodTemplate T = true) :
    MAV_DATA_STREAM_EXTENDED_STATUS = 2 ∧
    ∃ m, c.get_named_float fetch now name =
        .ok (none, cT,
          [⟨"REQUEST_DATA_STREAM:" ++ toString MAV_DATA_STREAM_EXTENDED_STATUS, m⟩]) ∧
      msgField m "req_stream_id" = .ok (.num 2) ∧
      msgField m "req_message_rate" = .ok (.num 4) ∧
      msgField m "start_stop" = .ok (.num 1) := by
  have hstale : heartbeatStale now c = false := by
    simp only [heartbeatStale, hhb, decide_eq_false_iff_not]
    linarith
  have hok : c.ok now = (true, c) := by
    simp [MavClient.ok, hstale, hws, hrh]
  refine ⟨rfl, ?_⟩
  obtain ⟨m, hrun, hgoodm, hreads⟩ := withMsgFields_ok
    [("target_system", JsonVal.num c.target_system),
     ("target_component", JsonVal.num c.target_component),
     ("req_stream_id", JsonVal.num MAV_DATA_STREAM_EXTENDED_STATUS),
     ("req_message_rate", JsonVal.num 4),
     ("start_stop", JsonVal.num 1)] T hgood
  refine ⟨m, ?_, ?_, ?_, ?_⟩
  · unfold MavClient.get_named_float MavClient.request_data_stream
    rw [hok]
    simp [hmiss, htpl, hrun]
  · rw [hreads "req_stream_id"]
    rfl
  · rw [hreads "req_message_rate"]
    rfl
  · rw [hreads "start_stop"]
    rfl

/-- Witness for C9: a miss on `UNSEEN_FLOAT` against `sampleUp`. -/
theorem C9_named_float_miss_requests_stream_witness :
    dlookup sampleUp.named_floats "UNSEEN_FLOAT" = none ∧
    (MAV_DATA_STREAM_EXTENDED_STATUS = 2 ∧
      ∃ m, sampleUp.get_named_float (fun _ => none) 1 "UNSEEN_FLOAT" =
          .ok (none, sampleUp,
            [⟨"REQUEST_DATA_STREAM:" ++ toString MAV_DATA_STREAM_EXTENDED_STATUS, m⟩]) ∧
        msgField m "req_stream_id" = .ok (.num 2) ∧
        msgField m "req_message_rate" = .ok (.num 4) ∧
        msgField m "start_stop" = .ok (.num 1)) :=
  ⟨rfl,
    C9_named_float_miss_requests_stream (fun _ => none) 1 0 sampleUp "UNSEEN_FLOAT"
      rfl rfl rfl (by norm_num) rfl goodTemplate sampleUp rfl rfl⟩

/-- Throttling invariant for a burst of `get_param` misses within one
0.3 s window while Up, with the PARAM_REQUEST_READ template cached: the run
succeeds (no error), sends `min n (10 - count)` requests, and leaves the
burst count at `min 10 (count + n)`. -/
theorem runGetParams_burst (fetch : String → Option JsonVal) (T : JsonVal)
    (hgood : isGoodTemplate T = true) (hb : ℚ) :
    ∀ (calls : List (ℚ × String)) (c : MavClient),
    c.websocket_is_open = true → c.receiving_heartbeats = true →
    c.last_heartbeat_time = some hb →
    dlookup c.template_cache "PARAM_REQUEST_READ" = some T →
    c.param_request_burst_count ≤ 10 →
    (∀ p ∈ calls, p.1 - hb ≤ 2 ∧ p.1 - c.param_request_burst_start ≤ 3 / 10 ∧
      dlookup c.parameters p.2 = none) →
    ∃ c2 s, runGetParams fetch calls c = .ok (c2, s) ∧
      s.length = min calls.length (10 - c.param_request_burst_count) ∧
      c2.param_request_burst_count = min 10 (c.param_request_burst_count + calls.length) := by
  intro calls
  induction calls with
  | nil =>
    intro c hws hrh hhb htc hle hcalls
    exact ⟨c, [], rfl, by simp, by simp; omega⟩
  | cons p rest ih =>
    intro c hws hrh hhb htc hle hcalls
    obtain ⟨t, n⟩ := p
    obtain ⟨h1, h2, h3⟩ := hcalls (t, n) (List.mem_cons_self _ _)
    have hstale : heartbeatStale t c = false := by
      simp only [heartbeatStale, hhb, decide_eq_false_iff_not]
      linarith
    have hok : c.ok t = (true, c) := by
      simp [MavClient.ok, hstale, hws, hrh]
    have hwin : ¬(t - c.param_request_burst_start > 3 / 10) := by linarith
    by_cases hfull : c.param_request_burst_count ≥ 10
    · have hstep : c.get_param fetch t n = .ok (none, c, []) := by
        unfold MavClient.get_param MavClient.request_param MavClient.get_template
        rw [hok]
        simp [h3, htc, hwin, hfull]
      obtain ⟨c2, s2, hrun2, hlen2, hcnt2⟩ := ih c hws hrh hhb htc hle
        (fun q hq => hcalls q (List.mem_cons_of_mem _ hq))
      refine ⟨c2, [] ++ s2, ?_, ?_, ?_⟩
      · unfold runGetParams
        simp only [hstep, hrun2]
      · simp only [List.nil_append, List.length_cons]
        omega
      · simp only [List.length_cons]
        omega
    · obtain ⟨m, hrun, hgoodm, hreads⟩ := withMsgFields_ok
        [("target_system", JsonVal.num c.target_system),
         ("target_component", JsonVal.num c.target_component),
         ("param_index", JsonVal.num (-1)),
         ("param_id", JsonVal.arr ((str_to_chars n 16).map JsonVal.str))] T hgood
      have hstep : c.get_param fetch t n =
          .ok (none, { c with param_request_burst_count := c.param_request_burst_count + 1 }, [⟨"PARAM_REQUEST_READ:" ++ n, m⟩]) := by
        unfold MavClient.get_param MavClient.request_param MavClient.get_template
        rw [hok]
        simp [h3, htc, hwin, hfull, hrun]
      obtain ⟨c2, s2, hrun2, hlen2, hcnt2⟩ := ih
        { c with param_request_burst_count := c.param_request_burst_count + 1 }
        hws hrh hhb htc (by show c.param_request_burst_count + 1 ≤ 10; omega)
        (fun q hq => hcalls q (List.mem_cons_of_mem _ hq))
      have hc1 : ({ c with param_request_burst_count := c.param_request_burst_count + 1 } : MavClient).param_request_burst_count = c.param_request_burst_count + 1 := rfl
      rw [hc1] at hlen2 hcnt2
      refine ⟨c2, [⟨"PARAM_REQUEST_READ:" ++ n, m⟩] ++ s2, ?_, ?_, ?_⟩
      · unfold runGetParams
        simp only [hstep, hrun2]
      · simp only [List.length_append, List.length_cons, List.length_nil]
        omega
      · simp only [List.length_cons]
        omega

/-- C2: 15 `get_param` calls for unseen names while Up, all within one
0.3 s throttle window with the PARAM_REQUEST_READ template available and a
fresh burst count, produce exactly 10 outbound read requests; the other 5
calls send nothing and raise no error. -/
theorem C2_fifteen_calls_ten_sends (fetch : String → Option JsonVal)
    (T : JsonVal) (hb : ℚ) (calls : List (ℚ × String)) (c : MavClient)
    (hws : c.websocket_is_open = true) (hrh : c.receiving_heartbeats = true)
    (hhb : c.last_heartbeat_time = some hb)
    (htc : dlookup c.template_cache "PARAM_REQUEST_READ" = some T)
    (hgood : isGoodTemplate T = true)
    (hlen : calls.length = 15)
    (hcount : c.param_request_burst_count = 0)
    (hcalls : ∀ p ∈ calls, p.1 - hb ≤ 2 ∧
      p.1 - c.param_request_burst_start ≤ 3 / 10 ∧
      dlookup c.parameters p.2 = none) :
    ∃ c2 s, runGetParams fetch calls c = .ok (c2, s) ∧ s.length = 10 ∧
      c2.param_request_burst_count = 10 := by
  obtain ⟨c2, s, hrun, hslen, hcnt⟩ := runGetParams_burst fetch T hgood hb calls c
    hws hrh hhb htc (by omega) hcalls
  exact ⟨c2, s, hrun, by omega, by omega⟩

/-- 15 distinct unseen parameter names queried over 140 ms. -/
def burstCalls : List (ℚ × String) :=
  [(0, "PA"), (1 / 100, "PB"), (2 / 100, "PC"), (3 / 100, "PD"), (4 / 100, "PE"),
   (5 / 100, "PF"), (6 / 100, "PG"), (7 / 100, "PH"), (8 / 100, "PI"),
   (9 / 100, "PJ"), (1 / 10, "PK"), (11 / 100, "PL"), (12 / 100, "PM"),
   (13 / 100, "PN"), (14 / 100, "PO")]

/-- Witness for C2: the 15-call burst against `sampleUp`. -/
theorem C2_fifteen_calls_ten_sends_witness :
    burstCalls.length = 15 ∧ sampleUp.param_request_burst_count = 0 ∧
    ∃ c2 s, runGetParams (fun _ => none) burstCalls sampleUp = .ok (c2, s) ∧
      s.length = 10 ∧ c2.param_request_burst_count = 10 :=
  ⟨rfl, rfl,
    C2_fifteen_calls_ten_sends (fun _ => none) goodTemplate 0 burstCalls sampleUp
      rfl rfl rfl rfl rfl rfl rfl
      (by intro p hp; fin_cases hp <;>
        exact ⟨by norm_num, by norm_num [sampleUp], rfl⟩)⟩

/-- A freshly constructed client (mav_client.py:55-82) whose websocket has
opened and that is receiving heartbeats (last one at t = 0), with all
caches empty. -/
def freshClient : MavClient where
  target_system := 1
  target_component := 1
  websocket_is_open := true
  receiving_heartbeats := true
  last_heartbeat_time := some 0
  msg_frequencies := []
  msg_callback := false
  parameters := []
  param_request_burst_start := 0
  param_request_burst_count := 0
  named_floats := []
  template_cache := []

/-- Counterexample to C7: a template cached from a first fetch, a heartbeat
timeout detected by `ok()` at t = 3 (which clears the template cache), and
a later `get_template` that re-fetches a different value: the later call
does not return the first fetch's bytes. -/
theorem C7_process_lifetime_cex :
    (freshClient.get_template (fun _ => some (.num 1)) "PARAM_SET").1 =
      some (.num 1) ∧
    ((((freshClient.get_template (fun _ => some (.num 1)) "PARAM_SET").2).ok
        3).2.get_template (fun _ => some (.num 2)) "PARAM_SET").1 =
      some (.num 2) ∧
    JsonVal.num 2 ≠ JsonVal.num 1 := by
  refine ⟨rfl, ?_, ?_⟩
  · have h1 : (freshClient.get_template (fun _ => some (JsonVal.num 1)) "PARAM_SET").2 =
        { freshClient with template_cache := [("PARAM_SET", JsonVal.num 1)] } := rfl
    rw [h1]
    have hstale : heartbeatStale 3
        ({ freshClient with template_cache := [("PARAM_SET", JsonVal.num 1)] } : MavClient) = true := by
      simp only [heartbeatStale, freshClient]
      norm_num
    unfold MavClient.ok
    rw [hstale]
    rfl
  · intro h
    injection h with h2
    norm_num at h2

/-- C7 amended: while a template remains cached (no reset has intervened),
every `get_template` call for that type returns exactly the cached value,
and no `get_template` call (for any type) overwrites an existing cache
entry; entries are only removed wholesale by `_reset` on a Down
transition, after which a re-fetch may return a different value. -/
theorem C7_cached_template_stable (c : MavClient)
    (fetch fetch2 : String → Option JsonVal) (nm nm2 : String) (T : JsonVal)
    (hc : dlookup c.template_cache nm = some T) :
    c.get_template fetch nm = (some T, c) ∧
    dlookup ((c.get_template fetch2 nm2).2).template_cache nm = some T := by
  constructor
  · unfold MavClient.get_template
    rw [hc]
  · unfold MavClient.get_template
    cases h2 : dlookup c.template_cache nm2 with
    | some t =>
      simp only [h2]
      exact hc
    | none =>
      simp only [h2]
      cases hf : fetch2 nm2 with
      | none =>
        simp only [hf]
        exact hc
      | some t =>
        simp only [hf]
        have hne : nm ≠ nm2 := by
          intro h
          rw [h, h2] at hc
          exact Option.noConfusion hc
        rw [dlookup_dinsert_ne _ _ _ _ hne]
        exact hc

/-- Witness for the amended C7 against `sampleUp`. -/
theorem C7_cached_template_stable_witness :
    dlookup sampleUp.template_cache "PARAM_SET" = some goodTemplate ∧
    (sampleUp.get_template (fun _ => none) "PARAM_SET" =
        (some goodTemplate, sampleUp) ∧
      dlookup ((sampleUp.get_template (fun _ => some (.num 5))
        "COMMAND_LONG").2).template_cache "PARAM_SET" = some goodTemplate) :=
  ⟨rfl, C7_cached_template_stable sampleUp (fun _ => none)
    (fun _ => some (.num 5)) "PARAM_SET" "COMMAND_LONG" goodTemplate rfl⟩

theorem get_template_hit_eq (f : String → Option JsonVal) (name : String)
    (h : TemplateHeap) (ca : ℕ) (v : JsonVal)
    (hc : dlookup h.cache name = some ca) (hr : h.read ca = some v) :
    h.get_template f name =
      (some h.heap.length, { heap := h.heap ++ [v], cache := h.cache }) := by
  unfold TemplateHeap.get_template TemplateHeap.alloc
  simp only [hc, hr]

theorem get_template_miss_eq (f : String → Option JsonVal) (name : String)
    (h : TemplateHeap) (t : JsonVal)
    (hc : dlookup h.cache name = none) (hf : f name = some t) :
    h.get_template f name =
      (some (h.heap ++ [t]).length,
        { heap := (h.heap ++ [t]) ++ [t],
          cache := dinsert h.cache name h.heap.length }) := by
  unfold TemplateHeap.get_template TemplateHeap.alloc
  simp only [hc, hf]

theorem heap_read_concat (l : List JsonVal) (c : List (String × ℕ)) (v : JsonVal) :
    ({ heap := l ++ [v], cache := c } : TemplateHeap).read l.length = some v := by
  unfold TemplateHeap.read
  exact List.getElem?_concat_length l v

/-- Assembled aliasing facts: once the cache maps `name` to an address `ca`
holding `val`, and `a1`, `a2` are distinct addresses different from `ca`,
writing through either of `a1`, `a2` leaves the other address, the cached
object, and the value delivered by any future `get_template` unchanged. -/
theorem template_no_aliasing_of_facts (name : String) (h2 : TemplateHeap)
    (ca a1 a2 : ℕ) (val : JsonVal)
    (hca : dlookup h2.cache name = some ca) (hread : h2.read ca = some val)
    (hne1 : ca ≠ a1) (hne2 : ca ≠ a2) (h12 : a1 ≠ a2) :
    (∀ v, (h2.write a1 v).read a2 = h2.read a2 ∧
          (h2.write a1 v).read ca = h2.read ca ∧
          (h2.write a2 v).read a1 = h2.read a1 ∧
          (h2.write a2 v).read ca = h2.read ca) ∧
    (∀ v f3, ∃ a3 h3, (h2.write a1 v).get_template f3 name = (some a3, h3) ∧
        h3.read a3 = some val) ∧
    (∀ v f3, ∃ a3 h3, (h2.write a2 v).get_template f3 name = (some a3, h3) ∧
        h3.read a3 = some val) := by
  have hw : ∀ (a b : ℕ) (v : JsonVal), a ≠ b →
      (h2.write a v).read b = h2.read b := by
    intro a b v hab
    unfold TemplateHeap.write TemplateHeap.read
    exact List.getElem?_set_ne hab
  refine ⟨fun v => ⟨hw a1 a2 v h12, hw a1 ca v (Ne.symm hne1),
    hw a2 a1 v (Ne.symm h12), hw a2 ca v (Ne.symm hne2)⟩, ?_, ?_⟩
  · intro v f3
    have hrw : (h2.write a1 v).read ca = some val :=
      (hw a1 ca v (Ne.symm hne1)).trans hread
    refine ⟨(h2.write a1 v).heap.length, _,
      get_template_hit_eq f3 name (h2.write a1 v) ca val hca hrw, ?_⟩
    exact heap_read_concat _ _ _
  · intro v f3
    have hrw : (h2.write a2 v).read ca = some val :=
      (hw a2 ca v (Ne.symm hne2)).trans hread
    refine ⟨(h2.write a2 v).heap.length, _,
      get_template_hit_eq f3 name (h2.write a2 v) ca val hca hrw, ?_⟩
    exact heap_read_concat _ _ _

/-- C6: two successive successful `get_template` calls hand out distinct
fresh objects, both distinct from the cached object; mutating either
returned object changes neither the other returned object, nor the cached
template, nor the value delivered by any future `get_template` call. -/
theorem C6_template_copies_independent (f1 f2 : String → Option JsonVal)
    (name : String) (h : TemplateHeap) (a1 a2 : ℕ) (h1 h2 : TemplateHeap)
    (hc1 : h.get_template f1 name = (some a1, h1))
    (hc2 : h1.get_template f2 name = (some a2, h2)) :
    a1 ≠ a2 ∧
    ∃ ca val, dlookup h2.cache name = some ca ∧ ca ≠ a1 ∧ ca ≠ a2 ∧
      h2.read ca = some val ∧
      (∀ v, (h2.write a1 v).read a2 = h2.read a2 ∧
            (h2.write a1 v).read ca = h2.read ca ∧
            (h2.write a2 v).read a1 = h2.read a1 ∧
            (h2.write a2 v).read ca = h2.read ca) ∧
      (∀ v f3, ∃ a3 h3, (h2.write a1 v).get_template f3 name = (some a3, h3) ∧
          h3.read a3 = some val) ∧
      (∀ v f3, ∃ a3 h3, (h2.write a2 v).get_template f3 name = (some a3, h3) ∧
          h3.read a3 = some val) := by
  cases hl : dlookup h.cache name with
  | some ca0 =>
    cases hr : h.read ca0 with
    | none =>
      unfold TemplateHeap.get_template at hc1
      simp only [hl, hr] at hc1
      simp [Prod.ext_iff] at hc1
    | some v0 =>
      have hlt : ca0 < h.heap.length := by
        by_contra hge
        have hnone : h.heap[ca0]? = none :=
          List.getElem?_eq_none (Nat.le_of_not_lt hge)
        unfold TemplateHeap.read at hr
        rw [hnone] at hr
        exact Option.noConfusion hr
      have he1 := get_template_hit_eq f1 name h ca0 v0 hl hr
      rw [he1] at hc1
      rw [Prod.mk.injEq] at hc1
      obtain ⟨ha1', hh1⟩ := hc1
      have ha1 : h.heap.length = a1 := Option.some.inj ha1'
      subst hh1
      have hr1 : ({ heap := h.heap ++ [v0], cache := h.cache } :
          TemplateHeap).read ca0 = some v0 := by
        unfold TemplateHeap.read at hr ⊢
        rw [List.getElem?_append_left hlt]
        exact hr
      have he2 := get_template_hit_eq f2 name
        { heap := h.heap ++ [v0], cache := h.cache } ca0 v0 hl hr1
      rw [he2] at hc2
      rw [Prod.mk.injEq] at hc2
      obtain ⟨ha2', hh2⟩ := hc2
      have ha2 : (h.heap ++ [v0]).length = a2 := Option.some.inj ha2'
      subst hh2
      have hlen : (h.heap ++ [v0]).length = h.heap.length + 1 := by simp
      have hread2 : ({ heap := (h.heap ++ [v0]) ++ [v0], cache := h.cache } : TemplateHeap).read ca0 = some v0 := by
        unfold TemplateHeap.read at hr ⊢
        rw [List.getElem?_append_left (by simp; omega),
          List.getElem?_append_left hlt]
        exact hr
      refine ⟨by omega, ca0, v0, hl, by omega, by omega, hread2, ?_⟩
      exact template_no_aliasing_of_facts name _ ca0 a1 a2 v0 hl hread2
        (by omega) (by omega) (by omega)
  | none =>
    cases hf : f1 name with
    | none =>
      unfold TemplateHeap.get_template at hc1
      simp only [hl, hf] at hc1
      simp [Prod.ext_iff] at hc1
    | some t =>
      have he1 := get_template_miss_eq f1 name h t hl hf
      rw [he1] at hc1
      rw [Prod.mk.injEq] at hc1
      obtain ⟨ha1', hh1⟩ := hc1
      have ha1 : (h.heap ++ [t]).length = a1 := Option.some.inj ha1'
      subst hh1
      have hl1 : dlookup (dinsert h.cache name h.heap.length) name =
          some h.heap.length := dlookup_dinsert_self _ _ _
      have hr1 : ({ heap := (h.heap ++ [t]) ++ [t], cache := dinsert h.cache name h.heap.length } : TemplateHeap).read h.heap.length = some t := by
        unfold TemplateHeap.read
        rw [List.getElem?_append_left (by simp)]
        exact List.getElem?_concat_length _ _
      have he2 := get_template_hit_eq f2 name
        { heap := (h.heap ++ [t]) ++ [t], cache := dinsert h.cache name h.heap.length }
        h.heap.length t hl1 hr1
      rw [he2] at hc2
      rw [Prod.mk.injEq] at hc2
      obtain ⟨ha2', hh2⟩ := hc2
      have ha2 : ((h.heap ++ [t]) ++ [t]).length = a2 := Option.some.inj ha2'
      subst hh2
      have hlen1 : (h.heap ++ [t]).length = h.heap.length + 1 := by simp
      have hlen2 : ((h.heap ++ [t]) ++ [t]).length = h.heap.length + 2 := by simp
      have hread2 : ({ heap := ((h.heap ++ [t]) ++ [t]) ++ [t], cache := dinsert h.cache name h.heap.length } : TemplateHeap).read h.heap.length = some t := by
        unfold TemplateHeap.read
        rw [List.getElem?_append_left (by simp), List.getElem?_append_left (by simp)]
        exact List.getElem?_concat_length _ _
      refine ⟨by omega, h.heap.length, t, hl1, by omega, by omega, hread2, ?_⟩
      exact template_no_aliasing_of_facts name _ h.heap.length a1 a2 t hl1 hread2
        (by omega) (by omega) (by omega)

/-- Witness for C6: two calls against an initially empty heap. -/
theorem C6_template_copies_independent_witness :
    ((⟨[], []⟩ : TemplateHeap).get_template (fun _ => some (.num 7))
      "PARAM_SET" = (some 1, ⟨[.num 7, .num 7], [("PARAM_SET", 0)]⟩)) ∧
    ((⟨[.num 7, .num 7], [("PARAM_SET", 0)]⟩ : TemplateHeap).get_template
      (fun _ => some (.num 7)) "PARAM_SET" =
      (some 2, ⟨[.num 7, .num 7, .num 7], [("PARAM_SET", 0)]⟩)) ∧
    (1 : ℕ) ≠ 2 :=
  ⟨rfl, rfl,
    (C6_template_copies_independent (fun _ => some (.num 7))
      (fun _ => some (.num 7)) "PARAM_SET" ⟨[], []⟩ 1 2
      ⟨[.num 7, .num 7], [("PARAM_SET", 0)]⟩
      ⟨[.num 7, .num 7, .num 7], [("PARAM_SET", 0)]⟩ rfl rfl).1⟩

/-- C4 evaluation: a frame that fails `json.loads` is logged and dropped
with no effect — state unchanged, nothing sent, callback not invoked — but
a frame that IS valid JSON while missing the expected `header` field (the
Python payload `{}`) raises `KeyError` out of `_add_ws_text_msg`
(`.exn`), because only the `json.loads` line is inside the try/except;
this contradicts the handler-never-raises part of the claim. -/
theorem C4_handler_raises_on_missing_header :
    ∀ (c : MavClient) (fetch : String → Option JsonVal) (now : ℚ),
      c.add_ws_text_msg fetch now none = .ok c [] [] ∧
      c.add_ws_text_msg fetch now (some (.obj [])) = .exn c [] := by
  intro c fetch now
  exact ⟨rfl, rfl⟩

/-- Counterexample to C3: the valid-JSON-but-headerless frame makes the
dispatch loop end with an escaped exception; `open_websocket`'s `except`
path then marks the channel closed (the client is Down) without running
`_reset`, so the Parameter cache keeps its entry on this Down transition. -/
theorem C3_down_transition_cex :
    (sampleUp.ok 0).1 = true ∧
    MavClient.ws_dispatch (fun _ => none) [(0, .text (some (.obj [])))]
      sampleUp [] [] = .ended sampleUp [] [] .exnEscaped ∧
    (sampleUp.connection_teardown .exnEscaped).websocket_is_open = false ∧
    ((sampleUp.connection_teardown .exnEscaped).ok 0).1 = false ∧
    (sampleUp.connection_teardown .exnEscaped).parameters =
      [("RNGFND1_TYPE", .num 10)] ∧
    (sampleUp.connection_teardown .exnEscaped).parameters ≠ [] := by
  refine ⟨?_, rfl, rfl, ?_, rfl, by simp [MavClient.connection_teardown, sampleUp]⟩
  · norm_num [MavClient.ok, heartbeatStale, sampleUp]
  · norm_num [MavClient.ok, MavClient.connection_teardown, heartbeatStale,
      MavClient.reset, sampleUp]

/-- C3 amended: a Down transition via the normal teardown (break on
channel ERROR or CLOSED) or via heartbeat timeout detected by `ok()`
clears the Parameter, NamedFloat and Template caches; only a Down
transition via an exception escaping the dispatch loop skips the reset. -/
theorem C3_down_clears_caches (c : MavClient) :
    (∀ e, e ≠ DispatchEnd.exnEscaped →
      (c.connection_teardown e).parameters = [] ∧
      (c.connection_teardown e).named_floats = [] ∧
      (c.connection_teardown e).template_cache = [] ∧
      (c.connection_teardown e).websocket_is_open = false ∧
      (c.connection_teardown e).receiving_heartbeats = false) ∧
    (∀ now t0, c.last_heartbeat_time = some t0 → now - t0 > 2 →
      (c.ok now).2.parameters = [] ∧ (c.ok now).2.named_floats = [] ∧
      (c.ok now).2.template_cache = []) := by
  constructor
  · intro e he
    cases e with
    | exnEscaped => exact absurd rfl he
    | closedByRemote => exact ⟨rfl, rfl, rfl, rfl, rfl⟩
    | channelError => exact ⟨rfl, rfl, rfl, rfl, rfl⟩
  · intro now t0 hhb hgap
    have hstale : heartbeatStale now c = true := by
      simp only [heartbeatStale, hhb, decide_eq_true_eq]
      linarith
    refine ⟨?_, ?_, ?_⟩ <;> simp [MavClient.ok, hstale, MavClient.reset]

/-- Witness for the amended C3 against `sampleUp`. -/
theorem C3_down_clears_caches_witness :
    (sampleUp.connection_teardown .closedByRemote).parameters = [] ∧
    (sampleUp.ok 3).2.template_cache = [] :=
  ⟨((C3_down_clears_caches sampleUp).1 .closedByRemote
      (fun h => DispatchEnd.noConfusion h)).1,
    ((C3_down_clears_caches sampleUp).2 3 0 rfl (by norm_num)).2.2⟩
